import Mathlib

/-!
# Verification of the remi hub / Claude-CLI provider core

Shallow embedding of the parts of the `remi` repository that the checked
properties concern:

* `src/remi/providers/claude_cli/protocol.py` — the JSONL protocol codec
  (`parse_line`, `format_user_message`, `format_tool_result`);
* `src/remi/providers/process_manager.py` — `ClaudeProcessManager.send_and_stream`,
  the per-turn streaming state machine with inline tool-call handling;
* `src/remi/providers/claude_cli/provider.py` — `ClaudeCLIProvider.send`,
  `_send_streaming`, `_send_fallback`, `_handle_tool_call`;
* `src/remi/core.py` — `Remi._process` / `Remi.handle_message`, the hub's
  per-message pipeline (session map, primary/fallback routing).

Wire frames are modelled as JSON values (the Python code works on the
dictionaries produced by `json.loads`; byte-level serialisation is the
standard library's concern).  Python numbers appearing in frames are
modelled as integers — none of the verified properties computes with
fractional values, which only travel opaquely (`cost_usd`).  Effectful
code is modelled by explicit state passing: the subprocess's stdout is a
list of frames, writes to its stdin are an output list, and `asyncio`
suspension points are irrelevant to the per-turn functional behaviour.
-/

namespace Remi

/-- A JSON value, as produced by Python's `json.loads`.  Objects are
association lists in document order; the parser below overwrites earlier
duplicate keys the way a Python `dict` literal does. -/
inductive Json where
  | null : Json
  | bool : Bool → Json
  | num : Int → Json
  | str : String → Json
  | arr : List Json → Json
  | obj : List (String × Json) → Json
  deriving Repr, Inhabited

namespace Json

/-- Lookup in an association list (first match). -/
def lookupKey (kvs : List (String × Json)) (k : String) : Option Json :=
  match kvs with
  | [] => none
  | (k', v) :: rest => if k' = k then some v else lookupKey rest k

/-- `d.get(k)` on a Python dict: `none` when the key is absent (or the
value is not a dict at all). -/
def get : Json → String → Option Json
  | obj kvs, k => lookupKey kvs k
  | _, _ => none

/-- `d.get(k, default)`. -/
def getD (j : Json) (k : String) (dflt : Json) : Json :=
  (j.get k).getD dflt

/-- String-typed field access with default: `d.get(k, dflt)` where the
code stores the value into a `str`-annotated dataclass field. -/
def getStrD (j : Json) (k : String) (dflt : String) : String :=
  match j.get k with
  | some (str s) => s
  | _ => dflt

/-- Integer-typed field access with default. -/
def getIntD (j : Json) (k : String) (dflt : Int) : Int :=
  match j.get k with
  | some (num n) => n
  | _ => dflt

/-- Bool-typed field access with default. -/
def getBoolD (j : Json) (k : String) (dflt : Bool) : Bool :=
  match j.get k with
  | some (bool b) => b
  | _ => dflt

/-- List-typed field access with default. -/
def getArrD (j : Json) (k : String) (dflt : List Json) : List Json :=
  match j.get k with
  | some (arr xs) => xs
  | _ => dflt

/-- Python truthiness of a JSON value: `None`, `False`, `0`, `""`, `[]`
and `{}` are falsy, everything else truthy. -/
def isTruthy : Json → Bool
  | null => false
  | bool b => b
  | num n => n ≠ 0
  | str s => s ≠ ""
  | arr xs => ¬ xs.isEmpty
  | obj kvs => ¬ kvs.isEmpty

end Json

/-! ## Protocol codec (`claude_cli/protocol.py`) -/

/-- `type=system, subtype=init` — first line after CLI startup. -/
structure SystemMessage where
  session_id : String
  tools : List Json := []
  model : String := ""
  mcp_servers : List Json := []
  deriving Repr, Inhabited

/-- `type=content_block_delta, delta.type=text_delta` — streaming text chunk. -/
structure ContentDelta where
  text : String
  index : Int := 0
  deriving Repr, Inhabited

/-- Tool call from the assistant — parsed from `content_block_start` or a
complete assistant message.  `input` holds the raw JSON value the frame
carried (the dataclass's `dict` field). -/
structure ToolUseRequest where
  tool_use_id : String
  name : String
  input : Json := Json.obj []
  deriving Repr, Inhabited

/-- `type=result` — final message marking end of a turn. -/
structure ResultMessage where
  result : String
  session_id : String := ""
  cost_usd : Option Json := none
  model : String := ""
  is_error : Bool := false
  duration_ms : Option Json := none
  deriving Repr, Inhabited

/-- The tagged union `ParsedMessage = SystemMessage | ContentDelta |
ToolUseRequest | ResultMessage | dict` returned by `parse_line`. -/
inductive ParsedMessage where
  | system : SystemMessage → ParsedMessage
  | delta : ContentDelta → ParsedMessage
  | toolUse : ToolUseRequest → ParsedMessage
  | result : ResultMessage → ParsedMessage
  | raw : Json → ParsedMessage
  deriving Repr, Inhabited

/-- `parse_line(line)` after `json.loads`: classify one stdout frame into
a typed message, or return the raw dict for unrecognized types
(translated from `protocol.py` lines 64–129). -/
def parse_line (data : Json) : ParsedMessage :=
  let msg_type := data.getStrD "type" ""
  if msg_type = "system" ∧ data.getStrD "subtype" "" = "init" then
    .system {
      session_id := data.getStrD "session_id" ""
      tools := data.getArrD "tools" []
      model := data.getStrD "model" ""
      mcp_servers := data.getArrD "mcp_servers" [] }
  else if msg_type = "content_block_delta" then
    let delta := data.getD "delta" (.obj [])
    if delta.getStrD "type" "" = "text_delta" then
      .delta { text := delta.getStrD "text" "", index := data.getIntD "index" 0 }
    else
      .raw data
  else if msg_type = "content_block_start" then
    let block := data.getD "content_block" (.obj [])
    if block.getStrD "type" "" = "tool_use" then
      .toolUse {
        tool_use_id := block.getStrD "id" ""
        name := block.getStrD "name" ""
        input := block.getD "input" (.obj []) }
    else
      .raw data
  else if msg_type = "assistant" then
    let message := data.getD "message" (.obj [])
    let content := message.getArrD "content" []
    let tool_blocks := content.filter (fun b => b.getStrD "type" "" = "tool_use")
    match tool_blocks with
    | block :: _ =>
      .toolUse {
        tool_use_id := block.getStrD "id" ""
        name := block.getStrD "name" ""
        input := block.getD "input" (.obj []) }
    | [] => .raw data
  else if msg_type = "result" then
    .result {
      result := data.getStrD "result" ""
      session_id := data.getStrD "session_id" ""
      cost_usd := data.get "cost_usd"
      model := data.getStrD "model" ""
      is_error := data.getBoolD "is_error" false
      duration_ms := data.get "duration_ms" }
  else
    .raw data

/-- `format_user_message(text)`: the user frame written to CLI stdin
(translated from `protocol.py` lines 135–142; the frame is modelled as
its JSON value). -/
def format_user_message (text : String) : Json :=
  .obj [("type", .str "user"),
        ("message", .obj [("role", .str "user"), ("content", .str text)])]

/-- `format_tool_result(tool_use_id, result, is_error)`: the tool-result
frame written to CLI stdin (translated from `protocol.py` lines 145–154). -/
def format_tool_result (tool_use_id : String) (result : String)
    (is_error : Bool) : Json :=
  .obj [("type", .str "tool_result"),
        ("tool_use_id", .str tool_use_id),
        ("content", .str result),
        ("is_error", .bool is_error)]

/-! ## `json.loads` — a JSON text parser

`send_and_stream` parses the accumulated `input_json_delta` text with
`json.loads`, and `_send_fallback` parses the one-shot run's stdout the
same way.  The standard library's parser is modelled by a recursive
descent parser over the character list.  Fractional and exponent number
literals are outside the model (the modelled `Json` carries integers
only); Python would accept them, so the model's notion of "valid JSON"
is a restriction, never a relaxation. -/

namespace Json

/-- Hex digit value, for `\uXXXX` escapes. -/
def hexDigit (c : Char) : Option Nat :=
  if '0' ≤ c ∧ c ≤ '9' then some (c.toNat - 48)
  else if 'a' ≤ c ∧ c ≤ 'f' then some (c.toNat - 87)
  else if 'A' ≤ c ∧ c ≤ 'F' then some (c.toNat - 55)
  else none

/-- JSON whitespace skipping. -/
def skipWs : List Char → List Char
  | c :: rest =>
    if c = ' ' ∨ c = '\t' ∨ c = '\n' ∨ c = '\r' then skipWs rest else c :: rest
  | [] => []

/-- Parse the four hex digits of a `\uXXXX` escape. -/
def parseHex4 : List Char → Option (Nat × List Char)
  | a :: b :: c :: d :: rest => do
    let ha ← hexDigit a
    let hb ← hexDigit b
    let hc ← hexDigit c
    let hd ← hexDigit d
    pure (((ha * 16 + hb) * 16 + hc) * 16 + hd, rest)
  | _ => none

/-- Parse the body of a string literal (the opening quote already
consumed), handling the JSON escapes; surrogate pairs in `\u` escapes
are combined as `json.loads` does. -/
def parseStrBody (fuel : Nat) (acc : List Char) (cs : List Char) :
    Option (String × List Char) :=
  match fuel with
  | 0 => none
  | fuel + 1 =>
    match cs with
    | [] => none
    | c :: rest =>
      if c = '"' then some (String.mk acc.reverse, rest)
      else if c = '\\' then
        match rest with
        | [] => none
        | e :: rest2 =>
          if e = '"' then parseStrBody fuel ('"' :: acc) rest2
          else if e = '\\' then parseStrBody fuel ('\\' :: acc) rest2
          else if e = '/' then parseStrBody fuel ('/' :: acc) rest2
          else if e = 'b' then parseStrBody fuel ('\x08' :: acc) rest2
          else if e = 'f' then parseStrBody fuel ('\x0c' :: acc) rest2
          else if e = 'n' then parseStrBody fuel ('\n' :: acc) rest2
          else if e = 'r' then parseStrBody fuel ('\r' :: acc) rest2
          else if e = 't' then parseStrBody fuel ('\t' :: acc) rest2
          else if e = 'u' then
            match parseHex4 rest2 with
            | none => none
            | some (n, rest3) =>
              if 0xD800 ≤ n ∧ n ≤ 0xDBFF then
                match rest3 with
                | '\\' :: 'u' :: rest4 =>
                  match parseHex4 rest4 with
                  | some (m, rest5) =>
                    if 0xDC00 ≤ m ∧ m ≤ 0xDFFF then
                      let cp := 0x10000 + (n - 0xD800) * 0x400 + (m - 0xDC00)
                      parseStrBody fuel (Char.ofNat cp :: acc) rest5
                    else none
                  | none => none
                | _ => none
              else if 0xDC00 ≤ n ∧ n ≤ 0xDFFF then none
              else parseStrBody fuel (Char.ofNat n :: acc) rest3
          else none
      else parseStrBody fuel (c :: acc) rest

/-- Span of decimal digits. -/
def takeDigits : List Char → (List Char × List Char)
  | [] => ([], [])
  | c :: rest =>
    if '0' ≤ c ∧ c ≤ '9' then
      let (ds, rest2) := takeDigits rest
      (c :: ds, rest2)
    else ([], c :: rest)

/-- Digits to a natural number. -/
def digitsToNat (ds : List Char) : Nat :=
  ds.foldl (fun n c => n * 10 + (c.toNat - 48)) 0

/-- Parse an integer literal (no fraction/exponent — see section note). -/
def parseNum (cs : List Char) : Option (Json × List Char) :=
  let (neg, cs1) := match cs with
    | '-' :: rest => (true, rest)
    | _ => (false, cs)
  match takeDigits cs1 with
  | ([], _) => none
  | (ds, rest) =>
    -- JSON forbids leading zeros
    if ds.length > 1 ∧ ds.headD '0' = '0' then none
    else
      match rest with
      | '.' :: _ => none
      | 'e' :: _ => none
      | 'E' :: _ => none
      | _ =>
        let n : Int := digitsToNat ds
        some (.num (if neg then -n else n), rest)

/-- Insert into an object under construction: an existing key keeps its
position but its value is overwritten, as in a Python dict. -/
def objInsert : List (String × Json) → String → Json → List (String × Json)
  | [], k, v => [(k, v)]
  | (k', v') :: rest, k, v =>
    if k' = k then (k, v) :: rest else (k', v') :: objInsert rest k v

mutual

/-- Parse one JSON value at the head of the input (leading whitespace
already skipped). -/
def parseVal : Nat → List Char → Option (Json × List Char)
  | 0, _ => none
  | fuel + 1, cs =>
    match cs with
    | [] => none
    | c :: rest =>
      if c = '"' then
        match parseStrBody (fuel + 1) [] rest with
        | some (s, rest2) => some (.str s, rest2)
        | none => none
      else if c = '{' then
        match skipWs rest with
        | '}' :: rest2 => some (.obj [], rest2)
        | cs2 => parseMembers fuel [] cs2
      else if c = '[' then
        match skipWs rest with
        | ']' :: rest2 => some (.arr [], rest2)
        | cs2 => parseElems fuel [] cs2
      else
        match cs with
        | 't' :: 'r' :: 'u' :: 'e' :: rest2 => some (.bool true, rest2)
        | 'f' :: 'a' :: 'l' :: 's' :: 'e' :: rest2 => some (.bool false, rest2)
        | 'n' :: 'u' :: 'l' :: 'l' :: rest2 => some (.null, rest2)
        | _ => parseNum cs

/-- Parse the members of an object (after `{`, at a key). -/
def parseMembers : Nat → List (String × Json) → List Char →
    Option (Json × List Char)
  | 0, _, _ => none
  | fuel + 1, acc, cs =>
    match cs with
    | '"' :: rest =>
      match parseStrBody (fuel + 1) [] rest with
      | none => none
      | some (k, rest2) =>
        match skipWs rest2 with
        | ':' :: rest3 =>
          match parseVal fuel (skipWs rest3) with
          | none => none
          | some (v, rest4) =>
            let acc2 := objInsert acc k v
            match skipWs rest4 with
            | ',' :: rest5 => parseMembers fuel acc2 (skipWs rest5)
            | '}' :: rest5 => some (.obj acc2, rest5)
            | _ => none
        | _ => none
    | _ => none

/-- Parse the elements of an array (after `[`, at a value). -/
def parseElems : Nat → List Json → List Char → Option (Json × List Char)
  | 0, _, _ => none
  | fuel + 1, acc, cs =>
    match parseVal fuel cs with
    | none => none
    | some (v, rest) =>
      match skipWs rest with
      | ',' :: rest2 => parseElems fuel (acc ++ [v]) (skipWs rest2)
      | ']' :: rest2 => some (.arr (acc ++ [v]), rest2)
      | _ => none

end

/-- `json.loads(s)`: parse a complete JSON document; `none` models
`json.JSONDecodeError`. -/
def parse (s : String) : Option Json :=
  match parseVal (s.length + 1) (skipWs s.data) with
  | some (v, rest) => if (skipWs rest).isEmpty then some v else none
  | none => none

end Json

/-- The user-content field of a frame: `frame["message"]["content"]`,
when it is a string. -/
def userContent (j : Json) : Option String :=
  match (j.getD "message" (.obj [])).get "content" with
  | some (.str s) => some s
  | _ => none

/-! ## Process driver (`process_manager.py`) -/

/-- The driver state a turn reads and writes: the remembered session id
(`_session_id`) and subprocess liveness (`is_alive`).  The subprocess
itself is external; its stdout is supplied to `send_and_stream` as a
list of frames (end of list = pipe closed / EOF). -/
structure ProcessManager where
  session_id : Option String := none
  alive : Bool := false
  deriving Repr, Inhabited

/-- Tool handler as `send_and_stream` receives it (the provider passes
`_handle_tool_call`); the `async` call is modelled as a pure function. -/
def ToolHandler := ToolUseRequest → String

/-- Observable outcome of one `send_and_stream` turn: the yielded
events, the frames written to the subprocess's stdin, the driver's
session id after the turn, and whether the turn ended at a `result`
frame (as opposed to EOF). -/
structure StreamResult where
  events : List ParsedMessage
  writes : List Json
  session_id : Option String
  sawResult : Bool
  deriving Repr, Inhabited

/-- The read loop of `ClaudeProcessManager.send_and_stream`
(`process_manager.py` lines 124–194), translated branch for branch:
`pending`/`chunks` are the `pending_tool` accumulator and
`input_chunks`; reaching the end of `lines` is `readline` returning
`None` (EOF), which `break`s out — a clean generator end.  A `result`
frame updates the session id (`msg.session_id or self._session_id`),
is yielded, and `return`s, leaving later lines unread. -/
def streamLoop (handler : Option ToolHandler) :
    List Json → Option ToolUseRequest → List String → Option String → StreamResult
  | [], _, _, session => ⟨[], [], session, false⟩
  | line :: rest, pending, chunks, session =>
    match parse_line line with
    | .toolUse t =>
      if t.input.isTruthy then
        -- complete input (non-streaming assistant message): yield, run handler
        let r := streamLoop handler rest pending chunks session
        { r with
          events := .toolUse t :: r.events
          writes :=
            match handler with
            | some h => format_tool_result t.tool_use_id (h t) false :: r.writes
            | none => r.writes }
      else
        -- streaming tool start: open the pending accumulator
        streamLoop handler rest (some t) [] session
    | .delta d =>
      let r := streamLoop handler rest pending chunks session
      { r with events := .delta d :: r.events }
    | .result res =>
      { events := [.result res]
        writes := []
        session_id := if res.session_id = "" then session else some res.session_id
        sawResult := true }
    | .system _ => streamLoop handler rest pending chunks session
    | .raw j =>
      let ty := j.getStrD "type" ""
      if ty = "content_block_delta" then
        let delta := j.getD "delta" (.obj [])
        if delta.getStrD "type" "" = "input_json_delta" ∧ pending.isSome then
          streamLoop handler rest pending
            (chunks ++ [delta.getStrD "partial_json" ""]) session
        else streamLoop handler rest pending chunks session
      else if ty = "content_block_stop" then
        match pending with
        | some pt =>
          -- finalize: parse accumulated input (kept as-is on empty/parse failure)
          let full := String.join chunks
          let inp := if full = "" then pt.input else (Json.parse full).getD pt.input
          let pt2 := { pt with input := inp }
          let r := streamLoop handler rest none [] session
          { r with
            events := .toolUse pt2 :: r.events
            writes :=
              match handler with
              | some h =>
                format_tool_result pt2.tool_use_id (h pt2) false :: r.writes
              | none => r.writes }
        | none => streamLoop handler rest pending chunks session
      else streamLoop handler rest pending chunks session

/-- `ClaudeProcessManager.send_and_stream(text, tool_handler)`: raises
`RuntimeError` when the process is not running, otherwise writes the
user frame and runs the read loop; returns the turn's observables and
the updated driver state.  (`.error` models the raised exception.) -/
def send_and_stream (mgr : ProcessManager) (text : String)
    (handler : Option ToolHandler) (lines : List Json) :
    Except String (StreamResult × ProcessManager) :=
  if ¬ mgr.alive then .error "Process not running — call start() first"
  else
    let r := streamLoop handler lines none [] mgr.session_id
    .ok ({ r with writes := format_user_message text :: r.writes },
         { mgr with session_id := r.session_id })

/-! ## Backend adapter (`claude_cli/provider.py`) -/

/-- One entry of the `tool_calls` list `_send_streaming` accumulates. -/
structure ToolCall where
  id : String
  name : String
  input : Json
  deriving Repr, Inhabited

/-- `AgentResponse` as the provider code constructs it.  Fields follow
`providers/base.py` plus the `input_tokens` / `output_tokens` /
`duration_ms` values that `_send_fallback` fills in and
`connectors/cli.py` reads (the snapshot's `providers/base.py` dataclass
predates those fields). -/
structure AgentResponse where
  text : String
  session_id : Option String := none
  cost_usd : Option Json := none
  model : Option String := none
  tool_calls : List ToolCall := []
  input_tokens : Option Json := none
  output_tokens : Option Json := none
  duration_ms : Option Json := none
  deriving Repr, Inhabited

/-- The buffering state of `_send_streaming`'s event loop. -/
structure StreamBuffer where
  text_parts : List String := []
  tool_calls : List ToolCall := []
  result_msg : Option ResultMessage := none
  deriving Repr, Inhabited

/-- One iteration of `_send_streaming`'s event loop (`provider.py`
lines 191–205): text deltas are appended to `text_parts`, tool-use
events to `tool_calls`, and the last `ResultMessage` is kept. -/
def bufferStep (st : StreamBuffer) (msg : ParsedMessage) : StreamBuffer :=
  match msg with
  | .delta d => { st with text_parts := st.text_parts ++ [d.text] }
  | .toolUse t =>
    { st with tool_calls := st.tool_calls ++ [⟨t.tool_use_id, t.name, t.input⟩] }
  | .result r => { st with result_msg := some r }
  | _ => st

/-- The whole event loop of `_send_streaming`. -/
def bufferEvents (events : List ParsedMessage) : StreamBuffer :=
  events.foldl bufferStep {}

/-- `ClaudeCLIProvider._send_streaming` (`provider.py` lines 178–218):
run a turn on the driver and buffer it into an `AgentResponse`.  When a
result frame arrived, the text is `result_msg.result or full_text`;
otherwise the concatenated deltas with no session id. -/
def send_streaming (mgr : ProcessManager) (prompt : String)
    (handler : Option ToolHandler) (lines : List Json) :
    Except String (AgentResponse × ProcessManager) := do
  let (res, mgr2) ← send_and_stream mgr prompt handler lines
  let st := bufferEvents res.events
  let full_text := String.join st.text_parts
  match st.result_msg with
  | some r =>
    pure ({ text := if r.result = "" then full_text else r.result
            session_id := some r.session_id
            cost_usd := r.cost_usd
            model := some r.model
            tool_calls := st.tool_calls }, mgr2)
  | none => pure ({ text := full_text, tool_calls := st.tool_calls }, mgr2)

/-- Outcome of the one-shot `subprocess.run(cmd, …)` call inside
`_send_fallback`: the binary may be missing (`FileNotFoundError`), or
the run completes with an exit code, stdout and stderr. -/
inductive RunOutcome where
  | fileNotFound : RunOutcome
  | completed : Int → String → String → RunOutcome
  deriving Repr, Inhabited

/-- `a or b` on optional JSON field values, as Python evaluates
`data.get("cost_usd") or data.get("total_cost_usd")`. -/
def jsonOr (a b : Option Json) : Option Json :=
  match a with
  | some v => if v.isTruthy then some v else b
  | none => b

/-- Optional string field: `data.get(k)` read into a `str | None` slot. -/
def getStrOpt (j : Json) (k : String) : Option String :=
  match j.get k with
  | some (.str s) => some s
  | _ => none

/-- `ClaudeCLIProvider._send_fallback` (`provider.py` lines 222–282),
from the `subprocess.run` outcome on: `FileNotFoundError` → a fixed
error text; a nonzero exit → `"[Provider error: …]"` sentinel text; a
zero exit parses stdout as JSON, degrading to the raw stripped stdout
when that fails.  Every branch returns an `AgentResponse`. -/
def send_fallback (outcome : RunOutcome) : AgentResponse :=
  match outcome with
  | .fileNotFound =>
    { text := "[Error: `claude` CLI not found. Is Claude Code installed?]" }
  | .completed returncode stdout stderr =>
    if returncode ≠ 0 then
      let s := stderr.trim
      { text := "[Provider error: " ++ (if s = "" then "unknown error" else s) ++ "]" }
    else
      match Json.parse stdout with
      | none => { text := stdout.trim }
      | some data =>
        { text := data.getStrD "result" stdout.trim
          session_id := getStrOpt data "session_id"
          cost_usd := jsonOr (data.get "cost_usd") (data.get "total_cost_usd")
          input_tokens := (data.getD "usage" (.obj [])).get "input_tokens"
          output_tokens := (data.getD "usage" (.obj [])).get "output_tokens"
          duration_ms := data.get "duration_ms"
          model := getStrOpt data "model" }

/-- `ClaudeCLIProvider.send` (`provider.py` lines 106–125).  The body is
`return await self._send_fallback(…)`: the streaming environment — the
frames a live streaming subprocess would produce — is never consulted,
so that parameter is unused here, exactly as the source never reaches
`_send_streaming` from `send`. -/
def provider_send (_streamEnv : List Json) (outcome : RunOutcome) : AgentResponse :=
  send_fallback outcome

/-! ## Tool-call pipeline (`_handle_tool_call`) -/

/-- Pre-tool hook `(tool_name, input) -> bool | None`; only an explicit
`False` return blocks the call. -/
def PreToolHook := String → Json → Option Bool

/-- Post-tool hook `(tool_name, input, result) -> None` — observability
only; the return value is discarded by the source. -/
def PostToolHook := String → Json → String → Unit

/-- A registered tool: name, description, declared parameter shape, and
the handler.  The handler is modelled as a function from the JSON input
to `Except`: `.error e` models a raised exception with message `e`
(`str(e)`), `.ok s` the `str(result)` of a normal return. -/
structure ToolDefinition where
  name : String
  description : String
  parameters : Json := .obj []
  handler : Json → Except String String

/-- Association-list lookup for the `_tools` dict. -/
def lookupTool : List (String × ToolDefinition) → String → Option ToolDefinition
  | [], _ => none
  | (k, td) :: rest, name => if k = name then some td else lookupTool rest name

/-- Index of the first pre-hook whose result `is False`, if any. -/
def firstDeny (hooks : List PreToolHook) (name : String) (inp : Json) : Option Nat :=
  match hooks with
  | [] => none
  | h :: rest =>
    if h name inp = some false then some 0
    else (firstDeny rest name inp).map (· + 1)

/-- What one `_handle_tool_call` invocation did: the returned result
string, how many pre-hooks ran (always a front segment of the
registration list), whether the handler ran, and the argument triple
every post-hook received (`none` when post-hooks were skipped) together
with how many of them ran. -/
structure ToolCallTrace where
  result : String
  preCallCount : Nat
  handlerRan : Bool
  postArgs : Option (String × Json × String)
  postCallCount : Nat

/-- `ClaudeCLIProvider._handle_tool_call` (`provider.py` lines 286–316),
instrumented with the invocation trace: pre-hooks run in registration
order and the first explicit `False` returns the blocked sentinel at
once (handler and post-hooks skipped); an unregistered tool returns the
unknown-tool text before any post-hook; otherwise the handler runs,
exceptions become `"[Tool error: …]"`, and every post-hook is called
with `(tool_name, tool_input, result_str)` — the result is returned as
computed, post-hooks cannot change it. -/
def handle_tool_call (pre : List PreToolHook) (post : List PostToolHook)
    (tools : List (String × ToolDefinition)) (request : ToolUseRequest) :
    ToolCallTrace :=
  let tool_name := request.name
  let tool_input := request.input
  match firstDeny pre tool_name tool_input with
  | some k =>
    { result := "[Tool call blocked by hook: " ++ tool_name ++ "]"
      preCallCount := k + 1
      handlerRan := false
      postArgs := none
      postCallCount := 0 }
  | none =>
    match lookupTool tools tool_name with
    | none =>
      { result := "[Unknown tool: " ++ tool_name ++ "]"
        preCallCount := pre.length
        handlerRan := false
        postArgs := none
        postCallCount := 0 }
    | some tool_def =>
      let result_str :=
        match tool_def.handler tool_input with
        | .ok s => s
        | .error e => "[Tool error: " ++ e ++ "]"
      { result := result_str
        preCallCount := pre.length
        handlerRan := true
        postArgs := some (tool_name, tool_input, result_str)
        postCallCount := post.length }

/-! ## Hub (`core.py`) -/

/-- `IncomingMessage` as the hub consumes it (`metadata` enters only
through the externally gathered context). -/
structure IncomingMessage where
  text : String
  chat_id : String
  sender : String
  connector_name : String
  deriving Repr, Inhabited

/-- A registered provider's `send` as the hub calls it:
`(message, context, session_id) ↦ AgentResponse`.  The constant
`SYSTEM_PROMPT` argument is dropped; per the `Provider` contract the
call returns an `AgentResponse`. -/
def SendFn := String → Option String → Option String → AgentResponse

/-- The provider section of `RemiConfig`: primary name and optional
fallback name. -/
structure ProviderConfig where
  name : String
  fallback : Option String := none
  deriving Repr, Inhabited

/-- Association-list lookup for the sessions map. -/
def lookupStr : List (String × String) → String → Option String
  | [], _ => none
  | (k, v) :: rest, key => if k = key then some v else lookupStr rest key

/-- Overwrite-or-append on the sessions map (`self._sessions[chat_id] = sid`). -/
def assocSet : List (String × String) → String → String → List (String × String)
  | [], key, v => [(key, v)]
  | (k, v') :: rest, key, v =>
    if k = key then (key, v) :: rest else (k, v') :: assocSet rest key v

/-- Association-list lookup for the providers map. -/
def lookupProvider : List (String × SendFn) → String → Option SendFn
  | [], _ => none
  | (k, p) :: rest, name => if k = name then some p else lookupProvider rest name

/-- Python's `s.startswith(pre)`: prefix test on the character
sequence. -/
def startswith (s pre : String) : Bool :=
  pre.data.isPrefixOf s.data

/-- Step 5 of `Remi._process` (`core.py` lines 125–127):
`if response.session_id: self._sessions[msg.chat_id] = response.session_id`.
Python truthiness: both `None` and `""` leave the map untouched. -/
def updateSessions (sessions : List (String × String)) (chat_id : String)
    (response : AgentResponse) : List (String × String) :=
  match response.session_id with
  | some sid => if sid = "" then sessions else assocSet sessions chat_id sid
  | none => sessions

/-- `Remi._process` (`core.py` lines 95–132).  The memory collaborator
is external: the assembled context arrives as a parameter and the
daily-log append has no bearing on the returned value.  `.error` models
the `RuntimeError` `_get_provider` raises for an unregistered provider
name; every other path returns the (possibly fallback) response and the
updated sessions map. -/
def process_message (cfg : ProviderConfig) (providers : List (String × SendFn))
    (context : Option String) (sessions : List (String × String))
    (msg : IncomingMessage) :
    Except String (AgentResponse × List (String × String)) :=
  let session_id := lookupStr sessions msg.chat_id
  match lookupProvider providers cfg.name with
  | none => .error ("Provider not registered: " ++ cfg.name)
  | some provider =>
    let response := provider msg.text context session_id
    let response :=
      if startswith response.text "[Provider error"
          ∨ startswith response.text "[Provider timeout" then
        match cfg.fallback with
        | some fallback_name =>
          if fallback_name = "" then response
          else
            match lookupProvider providers fallback_name with
            | some fallback => fallback msg.text context none
            | none => response
        | none => response
      else response
    .ok (response, updateSessions sessions msg.chat_id response)

/-- `Remi.handle_message` (`core.py` lines 89–93): acquire the chat's
lane lock and run `_process` while holding it.  The lock only affects
interleaving between messages; the per-message behaviour is
`_process`. -/
def handle_message (cfg : ProviderConfig) (providers : List (String × SendFn))
    (context : Option String) (sessions : List (String × String))
    (msg : IncomingMessage) :
    Except String (AgentResponse × List (String × String)) :=
  process_message cfg providers context sessions msg

/-! ## Concrete wire frames

The frame shapes the CLI emits on stdout, as exercised by the
repository's own tests (`tests/test_process_manager.py`). -/

/-- A streaming text chunk: `content_block_delta` with a `text_delta`. -/
def textDeltaFrame (t : String) : Json :=
  .obj [("type", .str "content_block_delta"), ("index", .num 0),
        ("delta", .obj [("type", .str "text_delta"), ("text", .str t)])]

/-- A tool-input fragment: `content_block_delta` with an
`input_json_delta` carrying `partial_json`. -/
def inputDeltaFrame (s : String) : Json :=
  .obj [("type", .str "content_block_delta"), ("index", .num 1),
        ("delta", .obj [("type", .str "input_json_delta"),
                        ("partial_json", .str s)])]

/-- A streaming tool-use open event: `content_block_start` with a
`tool_use` block whose input is still empty. -/
def toolStartFrame (id name : String) : Json :=
  .obj [("type", .str "content_block_start"), ("index", .num 1),
        ("content_block",
          .obj [("type", .str "tool_use"), ("id", .str id),
                ("name", .str name), ("input", .obj [])])]

/-- The tool block's close event: `content_block_stop`. -/
def stopFrame : Json :=
  .obj [("type", .str "content_block_stop"), ("index", .num 1)]

/-- The end-of-turn `result` frame with final text and session id. -/
def resultFrame (res sid : String) : Json :=
  .obj [("type", .str "result"), ("result", .str res),
        ("session_id", .str sid)]

/-! ## Frame-classification and loop-stepping lemmas -/

lemma parse_line_textDeltaFrame (t : String) :
    parse_line (textDeltaFrame t) = .delta ⟨t, 0⟩ := rfl

lemma parse_line_inputDeltaFrame (s : String) :
    parse_line (inputDeltaFrame s) = .raw (inputDeltaFrame s) := rfl

lemma parse_line_toolStartFrame (id name : String) :
    parse_line (toolStartFrame id name) = .toolUse ⟨id, name, .obj []⟩ := rfl

lemma parse_line_stopFrame : parse_line stopFrame = .raw stopFrame := rfl

lemma parse_line_resultFrame (res sid : String) :
    parse_line (resultFrame res sid) = .result ⟨res, sid, none, "", false, none⟩ := rfl

lemma json_parse_empty : Json.parse "" = none := rfl

lemma streamLoop_textDelta_cons (h : Option ToolHandler)
    (p : Option ToolUseRequest) (c : List String) (s : Option String)
    (rest : List Json) (t : String) :
    streamLoop h (textDeltaFrame t :: rest) p c s =
      { streamLoop h rest p c s with
        events := .delta ⟨t, 0⟩ :: (streamLoop h rest p c s).events } := rfl

lemma streamLoop_inputDelta_cons (h : Option ToolHandler)
    (pt : ToolUseRequest) (c : List String) (s : Option String)
    (rest : List Json) (f : String) :
    streamLoop h (inputDeltaFrame f :: rest) (some pt) c s =
      streamLoop h rest (some pt) (c ++ [f]) s := rfl

lemma streamLoop_toolStart_cons (h : Option ToolHandler)
    (p : Option ToolUseRequest) (c : List String) (s : Option String)
    (rest : List Json) (id name : String) :
    streamLoop h (toolStartFrame id name :: rest) p c s =
      streamLoop h rest (some ⟨id, name, .obj []⟩) [] s := rfl

lemma streamLoop_result_cons (h : Option ToolHandler)
    (p : Option ToolUseRequest) (c : List String) (s : Option String)
    (rest : List Json) (res sid : String) :
    streamLoop h (resultFrame res sid :: rest) p c s =
      ⟨[.result ⟨res, sid, none, "", false, none⟩], [],
       if sid = "" then s else some sid, true⟩ := rfl

lemma streamLoop_stop_cons (h : Option ToolHandler) (pt : ToolUseRequest)
    (c : List String) (s : Option String) (rest : List Json) :
    streamLoop h (stopFrame :: rest) (some pt) c s =
      (let full := String.join c
       let pt2 : ToolUseRequest :=
         { pt with input := if full = "" then pt.input
                            else (Json.parse full).getD pt.input }
       { streamLoop h rest none [] s with
         events := .toolUse pt2 :: (streamLoop h rest none [] s).events
         writes :=
           match h with
           | some hd =>
             format_tool_result pt2.tool_use_id (hd pt2) false ::
               (streamLoop h rest none [] s).writes
           | none => (streamLoop h rest none [] s).writes }) := rfl

/-- A run of text-delta frames is yielded one by one and otherwise
leaves the loop state untouched. -/
lemma streamLoop_textDeltas (h : Option ToolHandler)
    (p : Option ToolUseRequest) (c : List String) (s : Option String)
    (ts : List String) (rest : List Json) :
    streamLoop h (ts.map textDeltaFrame ++ rest) p c s =
      { streamLoop h rest p c s with
        events := ts.map (fun t => .delta ⟨t, 0⟩) ++
          (streamLoop h rest p c s).events } := by
  induction ts with
  | nil => simp
  | cons t ts ih =>
    rw [List.map_cons, List.cons_append, streamLoop_textDelta_cons, ih]
    simp

/-- With the accumulator open, a run of `input_json_delta` frames
appends its fragments to the chunk list in order. -/
lemma streamLoop_inputDeltas (h : Option ToolHandler) (pt : ToolUseRequest)
    (c : List String) (s : Option String) (frags : List String)
    (rest : List Json) :
    streamLoop h (frags.map inputDeltaFrame ++ rest) (some pt) c s =
      streamLoop h rest (some pt) (c ++ frags) s := by
  induction frags generalizing c with
  | nil => simp
  | cons f fs ih =>
    rw [List.map_cons, List.cons_append, streamLoop_inputDelta_cons, ih]
    simp

/-- Folding the `_send_streaming` buffer over a run of text deltas. -/
lemma foldl_bufferStep_deltas (init : StreamBuffer) (ts : List String) :
    List.foldl bufferStep init (ts.map fun t => .delta ⟨t, 0⟩) =
      { init with text_parts := init.text_parts ++ ts } := by
  induction ts generalizing init with
  | nil => simp
  | cons t ts ih =>
    rw [List.map_cons, List.foldl_cons, ih]
    simp [bufferStep]

lemma bufferEvents_deltas (ts : List String) :
    bufferEvents (ts.map fun t => .delta ⟨t, 0⟩) =
      { text_parts := ts, tool_calls := [], result_msg := none } := by
  rw [bufferEvents, foldl_bufferStep_deltas]
  simp

lemma bufferEvents_deltas_result (ts : List String) (r : ResultMessage) :
    bufferEvents ((ts.map fun t => .delta ⟨t, 0⟩) ++ [.result r]) =
      { text_parts := ts, tool_calls := [], result_msg := some r } := by
  rw [bufferEvents, List.foldl_append, foldl_bufferStep_deltas]
  simp [bufferStep]

/-- The sessions-map update at the site of `assocSet`: the written key
reads back the written value. -/
lemma lookupStr_assocSet_self (s : List (String × String)) (k v : String) :
    lookupStr (assocSet s k v) k = some v := by
  induction s with
  | nil => simp [assocSet, lookupStr]
  | cons kv rest ih =>
    by_cases hk : kv.1 = k
    · simp [assocSet, lookupStr, hk]
    · simp [assocSet, lookupStr, hk, ih]

/-- Keys other than the written one are unaffected by `assocSet`. -/
lemma lookupStr_assocSet_other (s : List (String × String)) (k v k2 : String)
    (hne : k2 ≠ k) :
    lookupStr (assocSet s k v) k2 = lookupStr s k2 := by
  induction s with
  | nil => simp [assocSet, lookupStr, hne.symm]
  | cons kv rest ih =>
    obtain ⟨k1, v1⟩ := kv
    simp only [assocSet]
    by_cases hk : k1 = k
    · subst hk
      simp [lookupStr, hne.symm]
    · simp only [if_neg hk, lookupStr]
      by_cases hk2 : k1 = k2
      · simp [hk2]
      · simp [hk2, ih]

/-- Reduction of the `Except` monad's bind at an `ok` value. -/
lemma except_bind_ok {ε α β : Type} (a : α) (f : α → Except ε β) :
    (Except.ok a : Except ε α) >>= f = f a := rfl

/-! ## The verified claims -/

/-- C8: for every string `text` — embedded quotes, ampersands and
newlines included — the frame produced by `format_user_message text`,
fed back through `parse_line`, is passed through as a raw frame whose
user-content field equals `text` exactly. -/
theorem format_user_roundtrip (text : String) :
    (match parse_line (format_user_message text) with
     | .raw j => userContent j
     | _ => none) = some text := rfl

/-- Shared computation: a turn of text deltas terminated by a result
frame, as `send_and_stream` processes it. -/
lemma send_and_stream_deltas_result (s0 : Option String) (txt : String)
    (h : Option ToolHandler) (ts : List String) (res sid : String) :
    send_and_stream ⟨s0, true⟩ txt h
        (ts.map textDeltaFrame ++ [resultFrame res sid]) =
      .ok ({ events := ts.map (fun t => .delta ⟨t, 0⟩) ++
               [.result ⟨res, sid, none, "", false, none⟩]
             writes := [format_user_message txt]
             session_id := if sid = "" then s0 else some sid
             sawResult := true },
           ⟨if sid = "" then s0 else some sid, true⟩) := by
  have key := streamLoop_textDeltas h none [] s0 ts [resultFrame res sid]
  rw [streamLoop_result_cons] at key
  unfold send_and_stream
  simp [key]

/-- C10: a turn ending in a result frame overwrites the driver's
remembered session id exactly when the frame's session id is non-empty;
an empty one leaves the previously recorded id (startup or an earlier
turn) in place — `self._session_id = msg.session_id or self._session_id`. -/
theorem driver_session_overwrite_iff_nonempty (s0 : Option String)
    (txt : String) (h : Option ToolHandler) (ts : List String)
    (res sid : String) :
    send_and_stream ⟨s0, true⟩ txt h
        (ts.map textDeltaFrame ++ [resultFrame res sid]) =
      .ok ({ events := ts.map (fun t => .delta ⟨t, 0⟩) ++
               [.result ⟨res, sid, none, "", false, none⟩]
             writes := [format_user_message txt]
             session_id := if sid = "" then s0 else some sid
             sawResult := true },
           ⟨if sid = "" then s0 else some sid, true⟩) :=
  send_and_stream_deltas_result s0 txt h ts res sid

/-- C6: when the turn ends with a result frame, the buffered
`AgentResponse` text is the result frame's payload whenever that
payload is non-empty; the concatenation of the streamed deltas is used
only when no result payload is available
(`text=result_msg.result or full_text`). -/
theorem streaming_text_authoritative_result (s0 : Option String)
    (prompt : String) (ts : List String) (res sid : String) :
    send_streaming ⟨s0, true⟩ prompt none
        (ts.map textDeltaFrame ++ [resultFrame res sid]) =
      .ok ({ text := if res = "" then String.join ts else res
             session_id := some sid
             cost_usd := none
             model := some ""
             tool_calls := [] },
           ⟨if sid = "" then s0 else some sid, true⟩) := by
  unfold send_streaming
  rw [send_and_stream_deltas_result, except_bind_ok]
  simp only [bufferEvents_deltas_result]
  rfl

/-- C9: when the subprocess closes its stdout before any result frame,
the turn ends cleanly (no exception): the streamed deltas are kept as
the buffered response text, the response carries no session id, the
driver's remembered session id is unchanged, and the hub's stored
session id would be left untouched by this response. -/
theorem eof_clean_termination (s0 : Option String) (prompt : String)
    (ts : List String) (sessions : List (String × String)) (chat : String) :
    send_streaming ⟨s0, true⟩ prompt none (ts.map textDeltaFrame) =
      .ok ({ text := String.join ts }, ⟨s0, true⟩)
    ∧ updateSessions sessions chat { text := String.join ts } = sessions := by
  constructor
  · have key : streamLoop none (ts.map textDeltaFrame) none [] s0 =
        ⟨ts.map (fun t => .delta ⟨t, 0⟩), [], s0, false⟩ := by
      have h1 := streamLoop_textDeltas none none [] s0 ts []
      rw [show streamLoop none ([] : List Json) none [] s0 =
            (⟨[], [], s0, false⟩ : StreamResult) from rfl] at h1
      simpa using h1
    have hsend : send_and_stream ⟨s0, true⟩ prompt none (ts.map textDeltaFrame) =
        .ok ({ events := ts.map (fun t => .delta ⟨t, 0⟩)
               writes := [format_user_message prompt]
               session_id := s0
               sawResult := false }, ⟨s0, true⟩) := by
      unfold send_and_stream
      simp [key]
    unfold send_streaming
    rw [hsend, except_bind_ok]
    simp only [bufferEvents_deltas]
    rfl
  · rfl

/-- C5: a tool-use open event with empty input, followed by
`input_json_delta` fragments and the closing `content_block_stop`,
yields exactly one completed tool-use request and exactly one
tool-result frame written back; the request's input is the JSON parse
of the verbatim fragment concatenation, or the empty object when that
concatenation is not valid JSON — the turn continues either way. -/
theorem tool_input_accumulator_roundtrip (s0 : Option String)
    (txt id name : String) (frags : List String) (h : ToolHandler) :
    send_and_stream ⟨s0, true⟩ txt (some h)
        (toolStartFrame id name :: (frags.map inputDeltaFrame ++ [stopFrame])) =
      .ok ({ events := [.toolUse
               ⟨id, name, (Json.parse (String.join frags)).getD (.obj [])⟩]
             writes := [format_user_message txt,
               format_tool_result id
                 (h ⟨id, name, (Json.parse (String.join frags)).getD (.obj [])⟩)
                 false]
             session_id := s0
             sawResult := false },
           ⟨s0, true⟩) := by
  have hinp : (if String.join frags = ""
        then (Json.obj [] : Json)
        else (Json.parse (String.join frags)).getD (.obj [])) =
      (Json.parse (String.join frags)).getD (.obj []) := by
    by_cases hf : String.join frags = ""
    · rw [hf, json_parse_empty]
      simp
    · rw [if_neg hf]
  have key : streamLoop (some h)
      (toolStartFrame id name :: (frags.map inputDeltaFrame ++ [stopFrame]))
      none [] s0 =
      ⟨[.toolUse ⟨id, name, (Json.parse (String.join frags)).getD (.obj [])⟩],
       [format_tool_result id
          (h ⟨id, name, (Json.parse (String.join frags)).getD (.obj [])⟩) false],
       s0, false⟩ := by
    rw [streamLoop_toolStart_cons, streamLoop_inputDeltas, streamLoop_stop_cons]
    simp only [List.nil_append, hinp]
    rfl
  unfold send_and_stream
  simp [key]

/-- Reading the chat's own entry after the step-5 session update. -/
lemma lookupStr_updateSessions_self (sessions : List (String × String))
    (chat : String) (resp : AgentResponse) :
    lookupStr (updateSessions sessions chat resp) chat =
      (match resp.session_id with
       | some sid => if sid = "" then lookupStr sessions chat else some sid
       | none => lookupStr sessions chat) := by
  unfold updateSessions
  cases resp.session_id with
  | none => rfl
  | some sid =>
    by_cases hs : sid = "" <;> simp [hs, lookupStr_assocSet_self]

/-- Other chats are unaffected by the step-5 session update. -/
lemma lookupStr_updateSessions_other (sessions : List (String × String))
    (chat : String) (resp : AgentResponse) (c : String) (hne : c ≠ chat) :
    lookupStr (updateSessions sessions chat resp) c = lookupStr sessions c := by
  unfold updateSessions
  cases resp.session_id with
  | none => rfl
  | some sid =>
    by_cases hs : sid = "" <;>
      simp [hs, lookupStr_assocSet_other _ _ _ _ hne]

/-- C2: with the configured primary provider registered (the hub's
normal operating condition — `start()` refuses to run with no
providers), `handle_message` never raises: it returns some
`AgentResponse` with an updated sessions map for every message, every
context, and every provider behaviour, failure text included. -/
theorem handle_message_always_returns (cfg : ProviderConfig)
    (providers : List (String × SendFn)) (context : Option String)
    (sessions : List (String × String)) (msg : IncomingMessage) (p : SendFn)
    (hp : lookupProvider providers cfg.name = some p) :
    ∃ response sessions2,
      handle_message cfg providers context sessions msg =
        .ok (response, sessions2) := by
  unfold handle_message process_message
  rw [hp]
  exact ⟨_, _, rfl⟩

/-- Witness for C2 at a concrete hub configuration. -/
theorem handle_message_always_returns_witness :
    ∃ response sessions2,
      handle_message ⟨"mock", none⟩
          [("mock", fun _ _ _ =>
            { text := "Mock response", session_id := some "sess-mock" })]
          none [] ⟨"Hello", "chat-1", "user", "cli"⟩ =
        .ok (response, sessions2) :=
  handle_message_always_returns ⟨"mock", none⟩
    [("mock", fun _ _ _ =>
      { text := "Mock response", session_id := some "sess-mock" })]
    none [] ⟨"Hello", "chat-1", "user", "cli"⟩ _ rfl

/-- C3: after a processed message, the stored session id for that chat
reads back the response's session id exactly when that id is non-empty,
and reads back its old value when the response omits (`None`) or
empties (`""`) it; entries of other chats are never touched. -/
theorem session_map_overwrite_iff_nonempty (cfg : ProviderConfig)
    (providers : List (String × SendFn)) (context : Option String)
    (sessions : List (String × String)) (msg : IncomingMessage)
    (response : AgentResponse) (sessions2 : List (String × String))
    (hrun : handle_message cfg providers context sessions msg =
      .ok (response, sessions2)) :
    (lookupStr sessions2 msg.chat_id =
      (match response.session_id with
       | some sid => if sid = "" then lookupStr sessions msg.chat_id else some sid
       | none => lookupStr sessions msg.chat_id))
    ∧ ∀ chat, chat ≠ msg.chat_id →
        lookupStr sessions2 chat = lookupStr sessions chat := by
  unfold handle_message process_message at hrun
  cases hL : lookupProvider providers cfg.name with
  | none =>
    rw [hL] at hrun
    exact absurd hrun (by simp)
  | some p =>
    rw [hL] at hrun
    simp only [Except.ok.injEq, Prod.mk.injEq] at hrun
    obtain ⟨hr, hs⟩ := hrun
    subst hr
    subst hs
    exact ⟨lookupStr_updateSessions_self sessions msg.chat_id _,
           fun chat hc => lookupStr_updateSessions_other sessions msg.chat_id _ chat hc⟩

/-- Witness for C3: a response carrying session id `"S1"` overwrites
the empty map's entry for its chat. -/
theorem session_map_overwrite_iff_nonempty_witness :
    (lookupStr [("chat-1", "S1")] "chat-1" = some "S1")
    ∧ ∀ chat, chat ≠ "chat-1" →
        lookupStr [("chat-1", "S1")] chat =
          lookupStr ([] : List (String × String)) chat :=
  session_map_overwrite_iff_nonempty ⟨"p", none⟩
    [("p", fun _ _ _ => { text := "resp", session_id := some "S1" })]
    none [] ⟨"msg", "chat-1", "user", "cli"⟩
    { text := "resp", session_id := some "S1" } [("chat-1", "S1")] rfl

/-- C4: when the primary's response text begins with a recognized
failure sentinel and the configured fallback is registered, the hub
returns the fallback's `send(text, context)` response, invoked without
the stored session id (the fallback turn is session-less), and updates
the session map from that fallback response. -/
theorem hub_fallback_routing (cfgName fbName : String)
    (providers : List (String × SendFn)) (context : Option String)
    (sessions : List (String × String)) (msg : IncomingMessage) (p f : SendFn)
    (hp : lookupProvider providers cfgName = some p)
    (hfail :
      startswith (p msg.text context (lookupStr sessions msg.chat_id)).text
          "[Provider error"
      ∨ startswith (p msg.text context (lookupStr sessions msg.chat_id)).text
          "[Provider timeout")
    (hfb : fbName ≠ "")
    (hf : lookupProvider providers fbName = some f) :
    handle_message ⟨cfgName, some fbName⟩ providers context sessions msg =
      .ok (f msg.text context none,
           updateSessions sessions msg.chat_id (f msg.text context none)) := by
  unfold handle_message process_message
  simp only [hp]
  rw [if_pos hfail]
  simp only [if_neg hfb, hf]

/-- Witness for C4: a primary that always answers with the failure
sentinel plus a registered fallback answering `"ok"` makes
`handle_message` return `"ok"`. -/
theorem hub_fallback_routing_witness :
    handle_message ⟨"fail", some "mock"⟩
        [("fail", fun _ _ _ => { text := "[Provider error: boom]" }),
         ("mock", fun _ _ _ => { text := "ok" })]
        none [] ⟨"Hello", "chat-1", "user", "cli"⟩ =
      .ok ({ text := "ok" }, []) :=
  hub_fallback_routing "fail" "mock"
    [("fail", fun _ _ _ => { text := "[Provider error: boom]" }),
     ("mock", fun _ _ _ => { text := "ok" })]
    none [] ⟨"Hello", "chat-1", "user", "cli"⟩
    (fun _ _ _ => { text := "[Provider error: boom]" })
    (fun _ _ _ => { text := "ok" })
    rfl (Or.inl (by decide)) (by decide) rfl

/-- C7: per tool call, pre-hooks run in registration order and the
first explicit deny (`False`) short-circuits with the blocked sentinel,
skipping the handler and every post-hook; with no deny and the tool
registered, the handler runs (exceptions becoming `"[Tool error: …]"`)
and every post-hook observes `(tool_name, tool_input, result_str)`,
with the result returned exactly as computed before the post-hooks. -/
theorem tool_hook_pipeline (pre : List PreToolHook) (post : List PostToolHook)
    (tools : List (String × ToolDefinition)) (request : ToolUseRequest)
    (td : ToolDefinition) (hreg : lookupTool tools request.name = some td) :
    (match firstDeny pre request.name request.input with
     | some k =>
       handle_tool_call pre post tools request =
         { result := "[Tool call blocked by hook: " ++ request.name ++ "]"
           preCallCount := k + 1
           handlerRan := false
           postArgs := none
           postCallCount := 0 }
     | none =>
       handle_tool_call pre post tools request =
         { result :=
             (match td.handler request.input with
              | .ok s => s
              | .error e => "[Tool error: " ++ e ++ "]")
           preCallCount := pre.length
           handlerRan := true
           postArgs := some (request.name, request.input,
             (match td.handler request.input with
              | .ok s => s
              | .error e => "[Tool error: " ++ e ++ "]"))
           postCallCount := post.length }) := by
  unfold handle_tool_call
  cases hd : firstDeny pre request.name request.input with
  | some k => simp [hd]
  | none => simp [hd, hreg]

/-- A concrete registered tool for the C7 witness. -/
def demoTool : ToolDefinition :=
  ⟨"demo", "a demo tool", .obj [], fun _ => .ok "result"⟩

/-- Witness for C7: one allowing pre-hook, one post-hook, the handler
returning `"result"`. -/
theorem tool_hook_pipeline_witness :
    handle_tool_call [fun _ _ => none] [fun _ _ _ => ()] [("demo", demoTool)]
        ⟨"t1", "demo", .obj []⟩ =
      { result := "result"
        preCallCount := 1
        handlerRan := true
        postArgs := some ("demo", .obj [], "result")
        postCallCount := 1 } :=
  tool_hook_pipeline [fun _ _ => none] [fun _ _ _ => ()] [("demo", demoTool)]
    ⟨"t1", "demo", .obj []⟩ demoTool rfl

/-- C1 (divergence witness): `ClaudeCLIProvider.send` forwards straight
to `_send_fallback`.  With a streaming environment that would complete
the turn successfully (`"Hello from streaming"`, session `"sess-test"`)
but the one-shot `claude` binary missing, `send` returns the one-shot
path's not-found text — the streaming path its docstring and tests
promise to try first is never consulted, as the second conjunct shows
it would have succeeded. -/
theorem claude_cli_send_skips_streaming :
    provider_send
        [textDeltaFrame "Hello from streaming",
         resultFrame "Hello from streaming" "sess-test"]
        .fileNotFound =
      { text := "[Error: `claude` CLI not found. Is Claude Code installed?]" }
    ∧ send_streaming ⟨none, true⟩ "Hello" none
        [textDeltaFrame "Hello from streaming",
         resultFrame "Hello from streaming" "sess-test"] =
      .ok ({ text := "Hello from streaming"
             session_id := some "sess-test"
             cost_usd := none
             model := some ""
             tool_calls := [] },
           ⟨some "sess-test", true⟩) :=
  ⟨rfl, rfl⟩

end Remi
